import Mathlib

/-!
Shallow embedding of `smac/epm/rf_with_instances.py`
(class `RandomForestWithInstances`).

Modelling conventions:
* numpy float64 scalars are modelled by `SMAC.RVal`: either `nan` or an exact
  rational value.  The only float operations the wrapper performs are `<`
  comparisons (false whenever an operand is NaN, as in numpy) and
  `np.isnan`, both captured exactly.
* numpy arrays are modelled by `SMAC.Arr`: an explicit shape list plus the
  row-major data buffer.  `len(A)` is `shape[0]`, `A.shape[1]` is
  `shape.getD 1 0`, iteration over a 2-D array yields `shape[0]` row slices.
* the external `pyrfr.regression` library (the native random forest and the
  data container) is opaque: a `Forest` is an arbitrary pair of per-row
  prediction functions together with an arbitrary `fit` response, and the
  data container simply records everything the wrapper passes to it.
* Python exceptions become `Except SMAC.PyError`; `ValueError` raised by the
  shape checks is constructor `shapeError` (the specification calls this
  error ShapeError), a missing attribute is `attributeError`, and
  `invalidState` mirrors the InvalidState entry of the specification's error
  taxonomy (the code never raises it).
-/

namespace SMAC

/-- A float64 scalar: NaN or an exact value. -/
inductive RVal where
  | nan : RVal
  | val : ℚ → RVal
deriving DecidableEq

/-- numpy `<` on scalars: any comparison involving NaN is false. -/
def RVal.lt : RVal → RVal → Bool
  | .val a, .val b => decide (a < b)
  | _, _ => false

/-- numpy `isnan` on scalars. -/
def RVal.isNan : RVal → Bool
  | .nan => true
  | .val _ => false

/-- A numpy ndarray: shape plus row-major data buffer. -/
structure Arr where
  shape : List Nat
  data : List RVal
deriving DecidableEq

/-- `len(A.shape)`, the rank. -/
def Arr.rank (a : Arr) : Nat := a.shape.length

/-- `A.shape[0]` (also `len(A)` for an ndarray). -/
def Arr.dim0 (a : Arr) : Nat := a.shape.getD 0 0

/-- `A.shape[1]`, the column count of a 2-D array. -/
def Arr.cols (a : Arr) : Nat := a.shape.getD 1 0

/-- The i-th row slice of a 2-D array. -/
def Arr.row (a : Arr) (i : Nat) : List RVal :=
  (a.data.drop (i * a.cols)).take a.cols

/-- Iteration over a 2-D array: `shape[0]` row slices. -/
def Arr.rows (a : Arr) : List (List RVal) :=
  (List.range a.dim0).map a.row

/-- `v.reshape((-1, 1))` applied to a 1-D vector: the column vector. -/
def Arr.colVec (l : List RVal) : Arr := ⟨[l.length, 1], l⟩

/-- `A.flatten()`: the raw data buffer as a 1-D vector. -/
def Arr.flatten (a : Arr) : List RVal := a.data

/-- Python exceptions raised on the prediction paths.  `shapeError` is the
`ValueError` of the shape checks (the spec's ShapeError); `attributeError`
is Python's `AttributeError`; `invalidState` is the spec's InvalidState
taxonomy entry, which the code never raises. -/
inductive PyError where
  | shapeError : String → PyError
  | attributeError : String → PyError
  | invalidState : String → PyError
deriving DecidableEq

/-- Message of the first shape check:
`'Expected 2d array, got %dd array!' % len(X.shape)`. -/
def rankMsg (r : Nat) : String :=
  "Expected 2d array, got " ++ toString r ++ "d array!"

/-- Message of the column-count checks:
`'Rows in X should have %d entries but have %d!' % (expected, actual)`. -/
def entriesMsg (e : Int) (c : Nat) : String :=
  "Rows in X should have " ++ toString e ++ " entries but have " ++ toString c ++ "!"

/-- Message of the `AttributeError` hit when `self.data` is read before any
`train` call assigned it. -/
def noDataMsg : String :=
  "RandomForestWithInstances object has no attribute data"

/-- The `pyrfr` data container
(`mostly_continuous_data_with_instances_container`): opaque to the wrapper,
so modelled as a record of everything the wrapper feeds it in `train`
(constructor dimensions, `import_configurations`, `import_instances`,
`add_data_points`). -/
structure DataC where
  num_config_dims : Nat
  num_instance_dims : Nat
  configs : Arr
  instances : Option Arr
  f_map : Arr
  y : List RVal
deriving DecidableEq

/-- Hyperparameter attributes the constructor sets on the native forest
object `self.rf`. -/
structure RFParams where
  num_trees : Nat
  seed : Int
  do_bootstrapping : Bool
  num_data_points_per_tree : Nat
  max_features : Int
  min_samples_to_split : Nat
  min_samples_in_leaf : Nat
  max_depth : Nat
  epsilon_purity : ℚ
  max_num_nodes : Nat
deriving DecidableEq

/-- Per-query behaviour of the opaque native forest: `batch_predictions`
per row of X, and `predict_marginalized_over_instances` on one padded
configuration with the stored data container. -/
structure ForestFuns where
  batchRow : List RVal → RVal × RVal
  margRow : List RVal → DataC → RVal × RVal

/-- The opaque native forest `pyrfr.regression.binary_rss()`: its current
prediction behaviour plus an arbitrary response of `rf.fit` to the set
hyperparameters and a data container. -/
structure Forest where
  funs : ForestFuns
  fitted : RFParams → DataC → ForestFuns

/-- Constructor keyword arguments of `RandomForestWithInstances.__init__`
other than `types` and `instance_features`. -/
structure InitArgs where
  num_trees : Nat
  do_bootstrapping : Bool
  n_points_per_tree : Nat
  ratio_features : ℚ
  min_samples_split : Nat
  min_samples_leaf : Nat
  max_depth : Nat
  eps_purity : ℚ
  max_num_nodes : Nat
  seed : Int
deriving DecidableEq

/-- The Python default values of those keyword arguments.  (`mkRat` is used
for the rational literals because Mathlib's division on `ℚ` is irreducible;
`ratioDefault_eq` and friends tie them to the fraction notation.) -/
def defaultArgs : InitArgs :=
  { num_trees := 10
    do_bootstrapping := true
    n_points_per_tree := 0
    ratio_features := mkRat 5 6
    min_samples_split := 3
    min_samples_leaf := 3
    max_depth := 20
    eps_purity := mkRat 1 100000000
    max_num_nodes := 1000
    seed := 42 }

/-- The constant `10 ** -5` assigned to `self.var_threshold`. -/
def varThreshold : ℚ := mkRat 1 100000

/-- The variance floor constant is one hundred-thousandth (1e-5). -/
theorem varThreshold_eq : varThreshold = 1 / 100000 := by
  unfold varThreshold
  rw [Rat.mkRat_eq_div]
  norm_num

/-- The default feature ratio is five sixths. -/
theorem ratioDefault_eq : defaultArgs.ratio_features = 5 / 6 := by
  show mkRat 5 6 = 5 / 6
  rw [Rat.mkRat_eq_div]
  norm_num

/-- State of a `RandomForestWithInstances` object.  `instance_features` is
`Option`-typed so that the `is None` test of
`predict_marginalized_over_instances` is expressible; `data` is `none`
until `train` first assigns `self.data`.  (`self.hypers` and
`self.logger` carry no behaviour and are omitted.) -/
structure RFModel where
  types : List Nat
  instance_features : Option Arr
  rfParams : RFParams
  rf : Forest
  var_threshold : ℚ
  data : Option DataC

/-- Python `int()` on an exact rational: truncation toward zero, computed on
the normalised numerator and denominator. -/
def pyInt (q : ℚ) : Int :=
  if 0 ≤ q.num then ((q.num.toNat / q.den : Nat) : Int)
  else -(((-q.num).toNat / q.den : Nat) : Int)

/-- `RandomForestWithInstances.__init__`.  With `instance_features=None` the
dummy 1-by-1 zero instance table is stored and one continuous (0-arity)
dimension is appended to `types`; otherwise both are stored as given.
`max_features` is computed from the local argument `types` (not from the
padded `self.types`).  The fresh native forest `binary_rss()` is the
parameter `rf0`. -/
def init (types : List Nat) (instance_features : Option Arr) (a : InitArgs)
    (rf0 : Forest) : RFModel :=
  let stored : Option Arr × List Nat :=
    match instance_features with
    | some f => (some f, types)
    | none => (some (Arr.mk [1, 1] [RVal.val 0]), types ++ [0])
  let maxF : Int :=
    if (1 : ℚ) ≤ a.ratio_features then 0
    else max 1 (pyInt ((types.length : ℚ) * a.ratio_features))
  { types := stored.2
    instance_features := stored.1
    rfParams :=
      { num_trees := a.num_trees
        seed := a.seed
        do_bootstrapping := a.do_bootstrapping
        num_data_points_per_tree := a.n_points_per_tree
        max_features := maxF
        min_samples_to_split := a.min_samples_split
        min_samples_in_leaf := a.min_samples_leaf
        max_depth := a.max_depth
        epsilon_purity := a.eps_purity
        max_num_nodes := a.max_num_nodes }
    rf := rf0
    var_threshold := varThreshold
    data := none }

/-- `self.instance_features.shape[1]`. -/
def tableWidth (m : RFModel) : Nat :=
  match m.instance_features with
  | some a => a.cols
  | none => 0

/-- The data container built inside `train`: constructed with
`(configs.shape[1], self.instance_features.shape[1])`, then
`import_configurations(configs)`, `import_instances(self.instance_features)`
and `add_data_points(f_map, y.flatten())`. -/
def mkTrainData (m : RFModel) (configs f_map y : Arr) : DataC :=
  { num_config_dims := configs.cols
    num_instance_dims := tableWidth m
    configs := configs
    instances := m.instance_features
    f_map := f_map
    y := y.flatten }

/-- `train`: flattens `y`, builds and stores the data container in
`self.data`, fits the forest on it, and returns `self` (the updated
object state). -/
def train (m : RFModel) (configs f_map y : Arr) : RFModel :=
  { m with
    data := some (mkTrainData m configs f_map y)
    rf := { m.rf with funs := m.rf.fitted m.rfParams (mkTrainData m configs f_map y) } }

/-- `predict`: shape checks (rank 2, column count = `self.types.shape[0]`),
then `self.rf.batch_predictions(X)` reshaped into column vectors.  No
variance floor is applied here. -/
def predict (m : RFModel) (X : Arr) : Except PyError (Arr × Arr) :=
  if X.rank ≠ 2 then
    .error (.shapeError (rankMsg X.rank))
  else if X.cols ≠ m.types.length then
    .error (.shapeError (entriesMsg (m.types.length : Int) X.cols))
  else
    .ok (Arr.colVec (X.rows.map (fun r => (m.rf.funs.batchRow r).1)),
         Arr.colVec (X.rows.map (fun r => (m.rf.funs.batchRow r).2)))

/-- `var[var < self.var_threshold] = self.var_threshold`, entrywise.  NaN
entries are untouched because a NaN comparison is false. -/
def floorV (t : ℚ) (v : RVal) : RVal :=
  if RVal.lt v (.val t) then .val t else v

/-- `var[np.isnan(var)] = self.var_threshold`, entrywise. -/
def deNaN (t : ℚ) (v : RVal) : RVal :=
  if v.isNan then .val t else v

/-- Guard of the degenerate branch:
`self.instance_features is None or len(self.instance_features) == 0`. -/
def degenGuard (m : RFModel) : Bool :=
  match m.instance_features with
  | none => true
  | some a => a.dim0 == 0

/-- The degenerate branch of `predict_marginalized_over_instances`: call
`self.predict(X)` (on X as given, unpadded), clamp sub-threshold and NaN
variances, return. -/
def degenPath (m : RFModel) (X : Arr) : Except PyError (Arr × Arr) :=
  match predict m X with
  | .error e => .error e
  | .ok (mean, var) =>
      .ok (mean, ⟨var.shape, (var.data.map (floorV m.var_threshold)).map (deNaN m.var_threshold)⟩)

/-- One iteration of the marginalization loop: pad the row with
`np.zeros(self.instance_features.shape[1])`, query
`self.rf.predict_marginalized_over_instances(x_, self.data)`, and apply the
in-loop variance floor `if var_x < self.var_threshold`. -/
def margRowStep (m : RFModel) (x : List RVal) (d : DataC) : RVal × RVal :=
  let x2 := x ++ List.replicate (tableWidth m) (RVal.val 0)
  let p := m.rf.funs.margRow x2 d
  (p.1, if RVal.lt p.2 (.val m.var_threshold) then .val m.var_threshold else p.2)

/-- The marginalization loop over the rows of X.  Each iteration reads
`self.data`; on an untrained model (no `data` attribute) the first
iteration raises `AttributeError`. -/
def margLoop (m : RFModel) : List (List RVal) → Except PyError (List (RVal × RVal))
  | [] => .ok []
  | x :: xs =>
    match m.data with
    | none => .error (.attributeError noDataMsg)
    | some d =>
      match margLoop m xs with
      | .error e => .error e
      | .ok ps => .ok (margRowStep m x d :: ps)

/-- The non-degenerate path of `predict_marginalized_over_instances`:
shape checks against `self.types.shape[0] - n_instance_features`, the
per-row marginalization loop, the post-loop array-level variance floor and
NaN replacement, and the reshape of the 1-D accumulators into column
vectors. -/
def margPath (m : RFModel) (X : Arr) : Except PyError (Arr × Arr) :=
  if X.rank ≠ 2 then
    .error (.shapeError (rankMsg X.rank))
  else if (X.cols : Int) ≠ (m.types.length : Int) - (tableWidth m : Int) then
    .error (.shapeError (entriesMsg ((m.types.length : Int) - (tableWidth m : Int)) X.cols))
  else
    match margLoop m X.rows with
    | .error e => .error e
    | .ok ps =>
        .ok (Arr.colVec (ps.map Prod.fst),
             Arr.colVec (((ps.map Prod.snd).map (floorV m.var_threshold)).map (deNaN m.var_threshold)))

/-- `predict_marginalized_over_instances`: the degenerate branch when the
stored instance table is `None` or empty, the per-row marginalization path
otherwise. -/
def predict_marginalized_over_instances (m : RFModel) (X : Arr) :
    Except PyError (Arr × Arr) :=
  if degenGuard m then degenPath m X else margPath m X

/-- Classifier used to state that a result is (not) a ShapeError. -/
def isShapeErr : Except PyError (Arr × Arr) → Bool
  | .error (.shapeError _) => true
  | _ => false

/-- Classifier used to state that a result is (not) an InvalidState
error. -/
def isInvalidStateErr : Except PyError (Arr × Arr) → Bool
  | .error (.invalidState _) => true
  | _ => false


/-! ### General lemmas about the embedded operations -/

/-- A 2-D array yields exactly `shape[0]` rows. -/
theorem Arr.rows_length (a : Arr) : a.rows.length = a.dim0 := by
  simp [Arr.rows]

/-- A nonempty 2-D array yields a first row. -/
theorem Arr.rows_cons (a : Arr) (h : 0 < a.dim0) :
    a.rows = a.row 0 :: (List.range (a.dim0 - 1)).map (fun i => a.row (i + 1)) := by
  unfold Arr.rows
  obtain ⟨k, hk⟩ := Nat.exists_eq_succ_of_ne_zero (Nat.pos_iff_ne_zero.mp h)
  rw [hk]
  rw [List.range_succ_eq_map]
  simp [List.map_map, Function.comp, Nat.succ_eq_add_one, Nat.add_comm]

/-- On a valid input the `predict` checks pass and the result is the raw
per-row forest output, reshaped. -/
theorem predict_eq_of_valid (m : RFModel) (X : Arr) (h2 : X.rank = 2)
    (hc : X.cols = m.types.length) :
    predict m X = .ok (Arr.colVec (X.rows.map (fun r => (m.rf.funs.batchRow r).1)),
                       Arr.colVec (X.rows.map (fun r => (m.rf.funs.batchRow r).2))) := by
  simp [predict, h2, hc]

/-- The two shape-check message formats are distinct for all arguments. -/
theorem rankMsg_ne_entriesMsg (r : Nat) (e : Int) (c : Nat) :
    rankMsg r ≠ entriesMsg e c := by
  intro h
  have h2 : (rankMsg r).data.head? = (entriesMsg e c).data.head? := by rw [h]
  rw [show (rankMsg r).data.head? = some 'E' from rfl] at h2
  rw [show (entriesMsg e c).data.head? = some 'R' from rfl] at h2
  simp at h2

/-- `predict` never raises anything the spec calls InvalidState. -/
theorem predict_no_invalid (m : RFModel) (X : Arr) :
    isInvalidStateErr (predict m X) = false := by
  unfold predict
  split
  · rfl
  · split
    · rfl
    · rfl

/-- The marginalization loop raises `AttributeError` on a nonempty row list
when no training data is stored. -/
theorem margLoop_none (m : RFModel) (hdata : m.data = none) (x : List RVal)
    (xs : List (List RVal)) :
    margLoop m (x :: xs) = .error (.attributeError noDataMsg) := by
  simp [margLoop, hdata]

/-- With stored training data the marginalization loop succeeds and maps
`margRowStep` over the rows. -/
theorem margLoop_some (m : RFModel) (d : DataC) (hdata : m.data = some d)
    (l : List (List RVal)) :
    margLoop m l = .ok (l.map (fun x => margRowStep m x d)) := by
  induction l with
  | nil => rfl
  | cons x xs ih => simp [margLoop, hdata, ih]

/-- The marginalization loop either fails with the missing-data
`AttributeError` or succeeds. -/
theorem margLoop_cases (m : RFModel) (l : List (List RVal)) :
    margLoop m l = .error (.attributeError noDataMsg) ∨ ∃ ps, margLoop m l = .ok ps := by
  induction l with
  | nil => exact .inr ⟨[], rfl⟩
  | cons x xs ih =>
    cases hd : m.data with
    | none => exact .inl (margLoop_none m hd x xs)
    | some d =>
      rcases ih with he | ⟨ps, hps⟩
      · left
        simp [margLoop, hd, he]
      · right
        exact ⟨margRowStep m x d :: ps, by simp [margLoop, hd, hps]⟩

/-- `predict_marginalized_over_instances` never raises anything the spec
calls InvalidState. -/
theorem predMarg_no_invalid (m : RFModel) (X : Arr) :
    isInvalidStateErr (predict_marginalized_over_instances m X) = false := by
  unfold predict_marginalized_over_instances
  split
  · unfold degenPath
    cases hp : predict m X with
    | error e =>
      have hno := predict_no_invalid m X
      rw [hp] at hno
      cases e <;> simp_all [isInvalidStateErr]
    | ok p => cases p; rfl
  · unfold margPath
    split
    · rfl
    · split
      · rfl
      · rcases margLoop_cases m X.rows with he | ⟨ps, hps⟩
        · rw [he]
          rfl
        · rw [hps]
          rfl

/-- The clamped variance entries are values at least the threshold. -/
theorem floor_clamp (t : ℚ) (v : RVal) :
    ∃ q : ℚ, deNaN t (floorV t v) = .val q ∧ t ≤ q := by
  cases v with
  | nan => exact ⟨t, by simp [floorV, deNaN, RVal.lt, RVal.isNan], le_refl t⟩
  | val q =>
    by_cases h : q < t
    · exact ⟨t, by simp [floorV, deNaN, RVal.lt, RVal.isNan, h], le_refl t⟩
    · exact ⟨q, by simp [floorV, deNaN, RVal.lt, RVal.isNan, h], le_of_not_lt h⟩

/-- Clamping a scalar at the threshold leaves nothing a `<` comparison still
flags as below the threshold. -/
theorem lt_after_clamp (t : ℚ) (v : RVal) :
    RVal.lt (if RVal.lt v (.val t) then .val t else v) (.val t) = false := by
  by_cases h : RVal.lt v (.val t)
  · rw [if_pos h]
    show decide (t < t) = false
    simp
  · rw [if_neg h]
    simp only [Bool.not_eq_true] at h
    exact h

/-- The in-loop floor of `margRowStep` already rules out a value below the
threshold. -/
theorem margRowStep_floored (m : RFModel) (x : List RVal) (d : DataC) :
    RVal.lt (margRowStep m x d).2 (.val m.var_threshold) = false :=
  lt_after_clamp m.var_threshold _

/-- `max 1` of the Python truncation equals `max 1` of the floor. -/
theorem max_one_pyInt_eq_floor (q : ℚ) : max 1 (pyInt q) = max 1 ⌊q⌋ := by
  unfold pyInt
  by_cases h : 0 ≤ q.num
  · rw [if_pos h, Rat.floor_def]
    congr 1
    rw [Int.ofNat_ediv, Int.toNat_of_nonneg h]
  · rw [if_neg h]
    have h1 : (-(((-q.num).toNat / q.den : Nat) : Int)) ≤ 1 := by
      have : (0:Int) ≤ (((-q.num).toNat / q.den : Nat) : Int) := Int.ofNat_nonneg _
      omega
    have hq : q ≤ 0 := by
      rw [Rat.num_nonneg] at h
      exact le_of_not_le h
    have h2 : ⌊q⌋ ≤ 1 := by
      have := Int.floor_le_floor hq
      rw [Int.floor_zero] at this
      omega
    rw [max_eq_left h1, max_eq_left h2]


/-! ### Concrete instances used by counterexamples and witnesses -/

/-- A forest stub whose batch predictions are (1, 1) and whose marginalized
predictions are (2, 1), so the two prediction paths are distinguishable. -/
def rfFunsA : ForestFuns :=
  { batchRow := fun _ => (RVal.val 1, RVal.val 1)
    margRow := fun _ _ => (RVal.val 2, RVal.val 1) }

/-- A native forest behaving like `rfFunsA` before and after any fit. -/
def forestA : Forest := { funs := rfFunsA, fitted := fun _ _ => rfFunsA }

/-- A forest stub predicting mean 0 and variance 0 everywhere (as a real
forest does on constant training targets, pre-floor). -/
def zeroFuns : ForestFuns :=
  { batchRow := fun _ => (RVal.val 0, RVal.val 0)
    margRow := fun _ _ => (RVal.val 0, RVal.val 0) }

/-- A native forest behaving like `zeroFuns` before and after any fit. -/
def forestZ : Forest := { funs := zeroFuns, fitted := fun _ _ => zeroFuns }

/-- A one-configuration training matrix. -/
def cfgA : Arr := Arr.mk [1, 1] [RVal.val 0]

/-- A one-sample config-to-instance map. -/
def fmapA : Arr := Arr.mk [1, 2] [RVal.val 0, RVal.val 0]

/-- A one-sample target vector. -/
def yA : Arr := Arr.mk [1] [RVal.val 0]

/-- A trained model built with one configuration dimension and no instance
features, on the forest stub `forestA`. -/
def mA : RFModel := train (init [0] none defaultArgs forestA) cfgA fmapA yA

/-- A valid single-row input for `predict_marginalized_over_instances` on
`mA` (configuration dimensions only). -/
def xA : Arr := Arr.mk [1, 1] [RVal.val 0]

/-- The row of `xA` padded with the dummy zero column: a valid input for
`predict` on `mA`. -/
def xAp : Arr := Arr.mk [1, 2] [RVal.val 0, RVal.val 0]

/-- A trained model with two configuration dimensions, no instance features,
on the zero forest stub. -/
def mZ : RFModel :=
  train (init [0, 0] none defaultArgs forestZ)
    (Arr.mk [1, 2] [RVal.val 0, RVal.val 0]) fmapA yA

/-- A valid three-column input for `predict` on `mZ`. -/
def xZ : Arr := Arr.mk [1, 3] [RVal.val 0, RVal.val 0, RVal.val 0]

/-- A freshly constructed, never trained model. -/
def m3 : RFModel := init [0, 0] none defaultArgs forestA

/-- A valid nonempty input for `predict_marginalized_over_instances` on
`m3`. -/
def x3 : Arr := Arr.mk [1, 2] [RVal.val 0, RVal.val 0]

/-- A real instance-feature table: two instances with one feature each. -/
def tbl5 : Arr := Arr.mk [2, 1] [RVal.val 0, RVal.val 10]

/-- A trained model with one configuration dimension and the real
instance-feature table `tbl5`. -/
def mB : RFModel := train (init [0, 0] (some tbl5) defaultArgs forestA) cfgA fmapA yA

/-- The data container `train` stored inside `mB`. -/
def dB : DataC := mkTrainData (init [0, 0] (some tbl5) defaultArgs forestA) cfgA fmapA yA

/-- An instance-feature table with zero rows. -/
def emptyTbl : Arr := Arr.mk [0, 0] []

/-- A model constructed with the explicitly empty instance-feature table. -/
def mE : RFModel := init [0] (some emptyTbl) defaultArgs forestA

/-- A rank-1 input. -/
def badRank : Arr := Arr.mk [2] [RVal.val 0, RVal.val 0]

/-- A three-column input (wrong width for `mA` and for `mB`). -/
def badCols : Arr := Arr.mk [1, 3] [RVal.val 0, RVal.val 0, RVal.val 0]

/-! ### The claims -/

/-- Claim C1 (counterexample): the claim says every `predict` variance is at
least `var_threshold` and never NaN; but `predict` applies no variance floor
at all, so a (legitimately trained) model whose forest reports variance 0 —
as a real forest does on constant targets — returns variance 0 < 1e-5. -/
theorem c1_counterexample :
    predict mZ xZ = .ok (Arr.mk [1, 1] [RVal.val 0], Arr.mk [1, 1] [RVal.val 0]) ∧
    RVal.lt (RVal.val 0) (RVal.val mZ.var_threshold) = true := ⟨rfl, rfl⟩

/-- Claim C1 (amended): for every valid 2-D input X, `predict` returns
exactly the forest's per-row means and variances reshaped into column
vectors; no variance floor and no NaN replacement is applied in `predict`
(the floor exists only in `predict_marginalized_over_instances`). -/
theorem c1_theorem (m : RFModel) (X : Arr) (h2 : X.rank = 2)
    (hc : X.cols = m.types.length) :
    predict m X = .ok (Arr.colVec (X.rows.map (fun r => (m.rf.funs.batchRow r).1)),
                       Arr.colVec (X.rows.map (fun r => (m.rf.funs.batchRow r).2))) :=
  predict_eq_of_valid m X h2 hc

/-- Claim C1 witness: the amended theorem applied to the concrete trained
model `mZ` and input `xZ`. -/
theorem c1_witness :
    predict mZ xZ = .ok (Arr.colVec (xZ.rows.map (fun r => (mZ.rf.funs.batchRow r).1)),
                         Arr.colVec (xZ.rows.map (fun r => (mZ.rf.funs.batchRow r).2))) :=
  c1_theorem mZ xZ rfl rfl

/-- Claim C2 (counterexample): the claim says that on a model with no real
instance features `predict_marginalized_over_instances` degenerates to
`predict` on the dummy-padded input followed by the variance floor.  On the
concrete no-instance-features model `mA` the actual result has mean 2 (the
forest's marginalized prediction) while the claimed computation yields mean
1 (the forest's batch prediction; the floor touches only variances), and the
degenerate guard is false, so the degenerate branch is not even taken. -/
theorem c2_counterexample :
    predict_marginalized_over_instances mA xA
      = .ok (Arr.mk [1, 1] [RVal.val 2], Arr.mk [1, 1] [RVal.val 1]) ∧
    degenPath mA xAp = .ok (Arr.mk [1, 1] [RVal.val 1], Arr.mk [1, 1] [RVal.val 1]) ∧
    degenGuard mA = false := ⟨rfl, rfl, rfl⟩

/-- Claim C2 (amended): for every model constructed without instance
features (and then trained), the stored dummy table makes the degenerate
guard false, so `predict_marginalized_over_instances` always takes the
per-row marginalization path, in which each row is padded with
`tableWidth = 1` zero (the dummy dimension) before the forest's
marginalized prediction. -/
theorem c2_theorem (types : List Nat) (a : InitArgs) (rf0 : Forest)
    (c f y X : Arr) :
    degenGuard (train (init types none a rf0) c f y) = false ∧
    tableWidth (train (init types none a rf0) c f y) = 1 ∧
    predict_marginalized_over_instances (train (init types none a rf0) c f y) X
      = margPath (train (init types none a rf0) c f y) X := ⟨rfl, rfl, rfl⟩

/-- Claim C3 (counterexample): on the freshly constructed model `m3` (no
successful `train`) with a shape-valid input, the failure is an
`AttributeError` (missing `self.data`), not an InvalidState error. -/
theorem c3_counterexample :
    predict_marginalized_over_instances m3 x3 = .error (.attributeError noDataMsg) ∧
    isInvalidStateErr (predict_marginalized_over_instances m3 x3) = false := ⟨rfl, rfl⟩

/-- Claim C3 (amended): neither prediction method checks for a prior
successful `train`.  On an untrained model (no stored data) with a
shape-valid, nonempty input, `predict_marginalized_over_instances` fails
with the missing-attribute error; and no input ever makes either method
fail with an InvalidState error (`predict` simply delegates to the external
forest object). -/
theorem c3_theorem (m : RFModel) (X : Arr)
    (hdata : m.data = none) (hg : degenGuard m = false)
    (h2 : X.rank = 2)
    (hc : (X.cols : Int) = (m.types.length : Int) - (tableWidth m : Int))
    (hn : 0 < X.dim0) :
    predict_marginalized_over_instances m X = .error (.attributeError noDataMsg) ∧
    (∀ m2 Y, isInvalidStateErr (predict m2 Y) = false) ∧
    (∀ m2 Y, isInvalidStateErr (predict_marginalized_over_instances m2 Y) = false) := by
  refine ⟨?_, predict_no_invalid, predMarg_no_invalid⟩
  have hmp : predict_marginalized_over_instances m X = margPath m X := by
    simp [predict_marginalized_over_instances, hg]
  rw [hmp]
  have hrows := Arr.rows_cons X hn
  simp [margPath, h2, hc, hrows, margLoop_none m hdata]

/-- Claim C3 witness: the amended theorem applied to the concrete untrained
model `m3` and input `x3`. -/
theorem c3_witness :
    predict_marginalized_over_instances m3 x3 = .error (.attributeError noDataMsg) :=
  (c3_theorem m3 x3 rfl rfl rfl (by decide) (by decide)).1

/-- Claim C4 (confirmed): `predict` fails with a ShapeError (the Python
`ValueError` of the shape checks) exactly when the input is not rank 2 or
its column count differs from the stored `types` length; the wrong-rank
message names the expected rank 2, the wrong-width message cites the
expected and actual column counts, and the two message formats are always
distinct. -/
theorem c4_theorem (m : RFModel) (X : Arr) :
    (X.rank ≠ 2 → predict m X = .error (.shapeError (rankMsg X.rank))) ∧
    (X.rank = 2 → X.cols ≠ m.types.length →
      predict m X = .error (.shapeError (entriesMsg (m.types.length : Int) X.cols))) ∧
    (isShapeErr (predict m X) = true ↔ (X.rank ≠ 2 ∨ X.cols ≠ m.types.length)) ∧
    rankMsg X.rank ≠ entriesMsg (m.types.length : Int) X.cols := by
  refine ⟨?_, ?_, ⟨?_, ?_⟩, rankMsg_ne_entriesMsg _ _ _⟩
  · intro h
    simp [predict, h]
  · intro h2 hc
    simp [predict, h2, hc]
  · intro h
    by_contra hno
    push_neg at hno
    rw [predict_eq_of_valid m X hno.1 hno.2] at h
    simp [isShapeErr] at h
  · intro h
    rcases h with h | h
    · simp [predict, h, isShapeErr]
    · by_cases h2 : X.rank = 2
      · simp [predict, h2, h, isShapeErr]
      · simp [predict, h2, isShapeErr]

/-- Claim C4 witness: the characterization applied to `mA` with a rank-1
input and with a wrong-width input. -/
theorem c4_witness :
    predict mA badRank = .error (.shapeError (rankMsg badRank.rank)) ∧
    predict mA badCols = .error (.shapeError (entriesMsg (mA.types.length : Int) badCols.cols)) :=
  ⟨(c4_theorem mA badRank).1 (by decide),
   (c4_theorem mA badCols).2.1 rfl (by decide)⟩


/-- Every member of a clamped-then-denannified variance list is a value at
least the threshold. -/
theorem clamped_list_mem (t : ℚ) (l : List RVal) (v : RVal)
    (hv : v ∈ (l.map (floorV t)).map (deNaN t)) :
    ∃ q : ℚ, v = .val q ∧ t ≤ q ∧ v.isNan = false := by
  rw [List.mem_map] at hv
  obtain ⟨w, hw, rfl⟩ := hv
  rw [List.mem_map] at hw
  obtain ⟨u, hu, rfl⟩ := hw
  obtain ⟨q, hq, hts⟩ := floor_clamp t u
  exact ⟨q, hq, hts, by rw [hq]; rfl⟩

/-- With a valid shape, `margPath` never produces a ShapeError. -/
theorem margPath_valid_not_shape (m : RFModel) (X : Arr) (h2 : X.rank = 2)
    (hc : (X.cols : Int) = (m.types.length : Int) - (tableWidth m : Int)) :
    isShapeErr (margPath m X) = false := by
  rcases margLoop_cases m X.rows with he | ⟨ps, hps⟩
  · simp [margPath, h2, hc, he, isShapeErr]
  · simp [margPath, h2, hc, hps, isShapeErr]

/-- Claim C5 (confirmed): on a trained model with a (nonempty) instance
table and a valid input, `predict_marginalized_over_instances` succeeds and
every returned variance entry is an actual value (not NaN) of at least
`var_threshold = 1e-5`; moreover the per-row floor is already applied
inside the loop: no per-row result can compare below the threshold. -/
theorem c5_theorem (m : RFModel) (X : Arr) (d : DataC)
    (hg : degenGuard m = false) (hd : m.data = some d)
    (h2 : X.rank = 2)
    (hc : (X.cols : Int) = (m.types.length : Int) - (tableWidth m : Int))
    (hv : m.var_threshold = varThreshold) :
    (∃ mean var, predict_marginalized_over_instances m X = .ok (mean, var) ∧
      ∀ v ∈ var.data, ∃ q : ℚ, v = .val q ∧ 1 / 100000 ≤ q ∧ v.isNan = false) ∧
    (∀ x, RVal.lt (margRowStep m x d).2 (.val m.var_threshold) = false) := by
  constructor
  · have hres : predict_marginalized_over_instances m X
        = .ok (Arr.colVec ((X.rows.map (fun x => margRowStep m x d)).map Prod.fst),
               Arr.colVec ((((X.rows.map (fun x => margRowStep m x d)).map Prod.snd).map
                  (floorV m.var_threshold)).map (deNaN m.var_threshold))) := by
      simp [predict_marginalized_over_instances, hg, margPath, h2, hc, margLoop_some m d hd]
    refine ⟨_, _, hres, fun v hmem => ?_⟩
    have hmem2 : v ∈ (((X.rows.map (fun x => margRowStep m x d)).map Prod.snd).map
        (floorV m.var_threshold)).map (deNaN m.var_threshold) := hmem
    obtain ⟨q, hq, hts, hnn⟩ := clamped_list_mem m.var_threshold _ v hmem2
    rw [hv, varThreshold_eq] at hts
    exact ⟨q, hq, hts, hnn⟩
  · intro x
    exact margRowStep_floored m x d

/-- Claim C5 witness: the theorem applied to the trained instance-feature
model `mB` and the valid input `xA`, then specialised to the first row. -/
theorem c5_witness :
    RVal.lt (margRowStep mB (xA.row 0) dB).2 (.val mB.var_threshold) = false :=
  (c5_theorem mB xA dB rfl rfl rfl (by decide) rfl).2 (xA.row 0)

/-- Claim C6 (confirmed): on a model with a (nonempty) instance table,
`predict_marginalized_over_instances` fails with a ShapeError exactly when
the input is not rank 2 or its column count differs from the stored
`types` length minus the instance-feature width; the wrong-width message
cites the expected and actual counts, and the error value is a constant
that involves no forest query, so no partial result is ever produced. -/
theorem c6_theorem (m : RFModel) (X : Arr) (hg : degenGuard m = false) :
    (X.rank ≠ 2 →
      predict_marginalized_over_instances m X = .error (.shapeError (rankMsg X.rank))) ∧
    (X.rank = 2 → (X.cols : Int) ≠ (m.types.length : Int) - (tableWidth m : Int) →
      predict_marginalized_over_instances m X
        = .error (.shapeError
            (entriesMsg ((m.types.length : Int) - (tableWidth m : Int)) X.cols))) ∧
    (isShapeErr (predict_marginalized_over_instances m X) = true ↔
      (X.rank ≠ 2 ∨ (X.cols : Int) ≠ (m.types.length : Int) - (tableWidth m : Int))) := by
  have hmp : predict_marginalized_over_instances m X = margPath m X := by
    simp [predict_marginalized_over_instances, hg]
  rw [hmp]
  refine ⟨?_, ?_, ⟨?_, ?_⟩⟩
  · intro h
    simp [margPath, h]
  · intro h2 hc
    simp [margPath, h2, hc]
  · intro h
    by_contra hno
    push_neg at hno
    rw [margPath_valid_not_shape m X hno.1 hno.2] at h
    exact absurd h (by simp)
  · intro h
    rcases h with h | h
    · simp [margPath, h, isShapeErr]
    · by_cases h2 : X.rank = 2
      · simp [margPath, h2, h, isShapeErr]
      · simp [margPath, h2, isShapeErr]

/-- Claim C6 witness: the characterization applied to the instance-feature
model `mB` with a rank-1 input and with a wrong-width input. -/
theorem c6_witness :
    predict_marginalized_over_instances mB badRank
      = .error (.shapeError (rankMsg badRank.rank)) ∧
    predict_marginalized_over_instances mB badCols
      = .error (.shapeError
          (entriesMsg ((mB.types.length : Int) - (tableWidth mB : Int)) badCols.cols)) :=
  ⟨(c6_theorem mB badRank rfl).1 (by decide),
   (c6_theorem mB badCols rfl).2.1 rfl (by decide)⟩

/-- Claim C7 (confirmed): construction without instance features stores
`types` with one extra 0-arity entry appended and a single all-zero
instance vector of width 1; construction with instance features stores
both exactly as given. -/
theorem c7_theorem (types : List Nat) (a : InitArgs) (rf0 : Forest) (f : Arr) :
    ((init types none a rf0).types = types ++ [0] ∧
     (init types none a rf0).instance_features = some (Arr.mk [1, 1] [RVal.val 0])) ∧
    ((init types (some f) a rf0).types = types ∧
     (init types (some f) a rf0).instance_features = some f) :=
  ⟨⟨rfl, rfl⟩, rfl, rfl⟩

/-- Claim C8 (confirmed): on a valid input with n rows (any n, including 1),
`predict` returns means and variances shaped [n, 1]; and `train` stores the
flattened targets in the data container and returns the model itself: the
same object state with only `data` and the fitted forest replaced. -/
theorem c8_theorem (m : RFModel) (X c f y : Arr)
    (h2 : X.rank = 2) (hc : X.cols = m.types.length) :
    (∃ means vars, predict m X = .ok (means, vars) ∧
      means.shape = [X.dim0, 1] ∧ vars.shape = [X.dim0, 1]) ∧
    ((train m c f y).data = some (mkTrainData m c f y) ∧
     (mkTrainData m c f y).y = y.data ∧
     (train m c f y).types = m.types ∧
     (train m c f y).instance_features = m.instance_features ∧
     (train m c f y).rfParams = m.rfParams ∧
     (train m c f y).var_threshold = m.var_threshold ∧
     (train m c f y).rf.fitted = m.rf.fitted) := by
  refine ⟨⟨_, _, predict_eq_of_valid m X h2 hc, ?_, ?_⟩,
    rfl, rfl, rfl, rfl, rfl, rfl, rfl⟩
  · simp [Arr.colVec, Arr.rows_length]
  · simp [Arr.colVec, Arr.rows_length]

/-- Claim C8 witness: the theorem applied to the trained model `mA`, its
valid input `xAp` (one row), and fresh training inputs. -/
theorem c8_witness :
    (train mA cfgA fmapA yA).data = some (mkTrainData mA cfgA fmapA yA) :=
  (c8_theorem mA xAp cfgA fmapA yA rfl rfl).2.1

/-- Claim C9 (confirmed): the forest's `max_features` is 0 whenever
`ratio_features` is at least 1, and otherwise `max 1 ⌊D * ratio⌋` where D
is the length of the `types` argument as passed in — independent of the
instance features and not counting the dummy dimension the constructor
appends to the stored `types`. -/
theorem c9_theorem (types : List Nat) (a : InitArgs) (rf0 : Forest) (f : Arr) :
    ((init types none a rf0).rfParams.max_features
      = if (1 : ℚ) ≤ a.ratio_features then 0
        else max 1 ⌊(types.length : ℚ) * a.ratio_features⌋) ∧
    (init types (some f) a rf0).rfParams.max_features
      = (init types none a rf0).rfParams.max_features ∧
    (init types none a rf0).types.length = types.length + 1 ∧
    (init types (some f) a rf0).types.length = types.length := by
  refine ⟨?_, rfl, by simp [init], rfl⟩
  show (if (1 : ℚ) ≤ a.ratio_features then 0
    else max 1 (pyInt ((types.length : ℚ) * a.ratio_features))) = _
  by_cases h : (1 : ℚ) ≤ a.ratio_features
  · simp [h]
  · simp [h, max_one_pyInt_eq_floor]

/-- Claim C10 (counterexample): the claim says every constructed model has a
non-None, nonempty stored instance table and never takes the degenerate
branch; but the constructor accepts an explicitly empty instance-feature
table, stores it as-is (zero rows), and then the degenerate guard holds and
the degenerate branch is taken. -/
theorem c10_counterexample :
    mE.instance_features = some emptyTbl ∧
    degenGuard mE = true ∧
    predict_marginalized_over_instances mE xA = degenPath mE xA := ⟨rfl, rfl, rfl⟩

/-- Claim C10 (amended): the stored instance table is always non-None; for
a model constructed without instance features it is the single zero row, so
the degenerate guard is false and the per-row marginalization path is
taken, and likewise for any supplied table with at least one row — only a
construction from an explicitly empty table makes the guard hold. -/
theorem c10_theorem (types : List Nat) (a : InitArgs) (rf0 : Forest)
    (instf : Option Arr) (X : Arr) :
    (∃ t, (init types instf a rf0).instance_features = some t) ∧
    (degenGuard (init types none a rf0) = false ∧
      predict_marginalized_over_instances (init types none a rf0) X
        = margPath (init types none a rf0) X) ∧
    (∀ f2 : Arr, f2.dim0 ≠ 0 →
      degenGuard (init types (some f2) a rf0) = false ∧
      predict_marginalized_over_instances (init types (some f2) a rf0) X
        = margPath (init types (some f2) a rf0) X) := by
  refine ⟨?_, ⟨rfl, rfl⟩, ?_⟩
  · cases instf with
    | none => exact ⟨_, rfl⟩
    | some f => exact ⟨f, rfl⟩
  · intro f2 hf
    have hguard : degenGuard (init types (some f2) a rf0) = false := by
      simp [degenGuard, init, hf]
    refine ⟨hguard, ?_⟩
    simp [predict_marginalized_over_instances, hguard]

/-- Claim C10 witness: a constructed model with the nonempty table `tbl5`
does have a false degenerate guard. -/
theorem c10_witness :
    degenGuard (init [0, 0] (some tbl5) defaultArgs forestA) = false :=
  ((c10_theorem [0, 0] defaultArgs forestA (some tbl5) xA).2.2 tbl5 (by decide)).1

end SMAC
